import Mathlib

/-!
Verification of the skywalker alignment-GUI core (`skywalker_gui.py`)
against its natural-language specification.

The Python source is shallowly embedded below:
- numeric signal readings become `ℚ` (the source handles plain Python
  floats; all arithmetic used here is exact subtraction, so `ℚ` is a
  faithful exact model),
- Python `None` becomes `Option`,
- code that can raise becomes `Except`,
- the mutable GUI object becomes explicit state records threaded through
  the transition functions.

Source functions keep their Python names where Lean allows it.
-/

set_option autoImplicit false

namespace Skywalker

/-- An ophyd signal: a named channel with a current numeric reading.
Mirrors the parts of the external signal objects the GUI core touches
(`.value`, and identity for picking the right signal). -/
structure Signal where
  sigName : String
  value : ℚ
deriving DecidableEq

/-- The parts of an areadetector imager device read by
`ad_stats_x_axis_rot`: `detector.cam.array_size.array_size_x/_y` and
`detector.stats2.centroid.x/y`, plus the device `name`. -/
structure Imager where
  name : String
  arraySizeX : Signal
  arraySizeY : Signal
  centroidX : Signal
  centroidY : Signal
deriving DecidableEq

/-- The dict returned by `ad_stats_x_axis_rot` (source lines 1199-1245). -/
structure RotInfo where
  key : String
  mod_x : Option ℚ
  mod_y : Option ℚ
  x_cent : Signal
  y_cent : Signal
  x_size : Signal
  y_size : Signal
deriving DecidableEq

/-- Embedding of `ad_stats_x_axis_rot(imager, rotation)`.

The Python body first normalizes `rotation % 360`, then selects
key/size/centroid signals by the single test `rotation % 180 == 0`
(here that one `if` is written as five `if`s with the identical
condition), then computes `mod_x`/`mod_y` from the chain
`if rotation == 0 / 90 / 180 / else`.  Note that in the `else` branch of
the axis selection the local `x_size` is the device's *native y* size
signal and `y_size` the *native x* size signal, exactly as in the
source.  Python `%` on ints agrees with `Int.emod` for a positive
modulus. -/
def ad_stats_x_axis_rot (imager : Imager) (rotation : Int) : RotInfo :=
  let rot := rotation % 360
  let det_key := if rot % 180 = 0 then "detector_stats2_centroid_x"
                 else "detector_stats2_centroid_y"
  let x_size := if rot % 180 = 0 then imager.arraySizeX else imager.arraySizeY
  let y_size := if rot % 180 = 0 then imager.arraySizeY else imager.arraySizeX
  let x_cent := if rot % 180 = 0 then imager.centroidX else imager.centroidY
  let y_cent := if rot % 180 = 0 then imager.centroidY else imager.centroidX
  let mod_x : Option ℚ :=
    if rot = 0 then none
    else if rot = 90 then some y_size.value
    else if rot = 180 then some x_size.value
    else none
  let mod_y : Option ℚ :=
    if rot = 0 then none
    else if rot = 90 then none
    else if rot = 180 then some y_size.value
    else some x_size.value
  { key := det_key, mod_x := mod_x, mod_y := mod_y,
    x_cent := x_cent, y_cent := y_cent, x_size := x_size, y_size := y_size }

/-- The conversion step used symmetrically in `on_start_button`
(lines 459-461), `on_slits_button` (lines 545-547) and
`update_centroid`: `if modifier is not None: v = modifier - v`. -/
def applyMod (modifier : Option ℚ) (v : ℚ) : ℚ :=
  match modifier with
  | none => v
  | some m => m - v

theorem applyMod_applyMod (modifier : Option ℚ) (v : ℚ) :
    applyMod modifier (applyMod modifier v) = v := by
  cases modifier with
  | none => rfl
  | some m => show m - (m - v) = v; ring

/-- A concrete imager with distinct axis sizes, used as a witness input. -/
def imagerA : Imager :=
  { name := "imA"
    arraySizeX := { sigName := "imA_size_x", value := 300 }
    arraySizeY := { sigName := "imA_size_y", value := 500 }
    centroidX := { sigName := "imA_cent_x", value := 120 }
    centroidY := { sigName := "imA_cent_y", value := 240 } }

/-- C1: Rotation round-trip.  For every device and every rotation in
{0,90,180,270} and every raw reading `v`, applying the rotation
modifier twice (canonical conversion then native conversion, both the
same `mod - v` step) returns `v`; this holds on both the x and the y
modifier, and a `None` modifier leaves `v` untouched. -/
theorem rotation_round_trip (imager : Imager) (rotation : Int)
    (hrot : rotation = 0 ∨ rotation = 90 ∨ rotation = 180 ∨ rotation = 270)
    (v : ℚ) :
    applyMod (ad_stats_x_axis_rot imager rotation).mod_x
        (applyMod (ad_stats_x_axis_rot imager rotation).mod_x v) = v ∧
    applyMod (ad_stats_x_axis_rot imager rotation).mod_y
        (applyMod (ad_stats_x_axis_rot imager rotation).mod_y v) = v ∧
    ((ad_stats_x_axis_rot imager rotation).mod_x = none →
      applyMod (ad_stats_x_axis_rot imager rotation).mod_x v = v) := by
  refine ⟨applyMod_applyMod _ _, applyMod_applyMod _ _, ?_⟩
  intro h
  rw [h]
  rfl

/-- Witness for C1 at rotation 180 and reading 7. -/
theorem rotation_round_trip_witness :
    applyMod (ad_stats_x_axis_rot imagerA 180).mod_x
        (applyMod (ad_stats_x_axis_rot imagerA 180).mod_x 7) = 7 :=
  (rotation_round_trip imagerA 180 (Or.inr (Or.inr (Or.inl rfl))) 7).1

/-- C3 counterexample: at rotation 90 the code sets
`mod_x = y_size.value` where the local `y_size` is the *native x* size
signal, so `mod_x` is the native x size (300 for `imagerA`), not the
native y size (500) as the claim states; symmetrically at 270 `mod_y`
is the native y size, not the native x size. -/
theorem rot90_mod_counterexample :
    imagerA.arraySizeX.value = 300 ∧
    imagerA.arraySizeY.value = 500 ∧
    (ad_stats_x_axis_rot imagerA 90).mod_x = some 300 ∧
    (ad_stats_x_axis_rot imagerA 90).mod_x ≠ some imagerA.arraySizeY.value ∧
    (ad_stats_x_axis_rot imagerA 270).mod_y = some 500 ∧
    (ad_stats_x_axis_rot imagerA 270).mod_y ≠ some imagerA.arraySizeX.value := by
  refine ⟨rfl, rfl, rfl, ?_, rfl, ?_⟩ <;> decide

/-- The amended C3 description of `ad_stats_x_axis_rot`, written from the
amended claim: normalize modulo 360; at 0 both mods are `None`; at 90
only `mod_x` is non-null and equals the *native x* size; at 180
`mod_x`/`mod_y` are the native x/y sizes; at 270 only `mod_y` is
non-null and equals the *native y* size; when `rotation % 180 == 0` the
canonical key and signals are the device's native X centroid/size
signals, otherwise the native Y signals. -/
def adStatsAmendedSpec (imager : Imager) (rotation : Int) : RotInfo :=
  let rot := rotation % 360
  if rot = 0 then
    { key := "detector_stats2_centroid_x", mod_x := none, mod_y := none,
      x_cent := imager.centroidX, y_cent := imager.centroidY,
      x_size := imager.arraySizeX, y_size := imager.arraySizeY }
  else if rot = 90 then
    { key := "detector_stats2_centroid_y",
      mod_x := some imager.arraySizeX.value, mod_y := none,
      x_cent := imager.centroidY, y_cent := imager.centroidX,
      x_size := imager.arraySizeY, y_size := imager.arraySizeX }
  else if rot = 180 then
    { key := "detector_stats2_centroid_x",
      mod_x := some imager.arraySizeX.value,
      mod_y := some imager.arraySizeY.value,
      x_cent := imager.centroidX, y_cent := imager.centroidY,
      x_size := imager.arraySizeX, y_size := imager.arraySizeY }
  else
    { key := "detector_stats2_centroid_y", mod_x := none,
      mod_y := some imager.arraySizeY.value,
      x_cent := imager.centroidY, y_cent := imager.centroidX,
      x_size := imager.arraySizeY, y_size := imager.arraySizeX }

/-- C3 (amended): for every device and every rotation that is a multiple
of 90, `ad_stats_x_axis_rot` returns exactly the structure described by
the amended claim (`adStatsAmendedSpec`): the reflection offsets are
`None`/`None` at 0, native-x-size/`None` at 90, native-x/native-y at
180, `None`/native-y-size at 270, and the canonical key/signals are the
native X signals iff `rotation % 180 == 0`. -/
theorem ad_stats_rot_characterization (imager : Imager) (rotation : Int)
    (h : rotation % 90 = 0) :
    ad_stats_x_axis_rot imager rotation = adStatsAmendedSpec imager rotation := by
  have h360 : rotation % 360 % 90 = 0 := by
    rw [Int.emod_emod_of_dvd _ (by norm_num : (90 : Int) ∣ 360)]
    exact h
  have hlo : 0 ≤ rotation % 360 := Int.emod_nonneg _ (by norm_num)
  have hhi : rotation % 360 < 360 := Int.emod_lt_of_pos _ (by norm_num)
  have hcases : rotation % 360 = 0 ∨ rotation % 360 = 90 ∨
      rotation % 360 = 180 ∨ rotation % 360 = 270 := by omega
  rcases hcases with hr | hr | hr | hr <;>
    simp [ad_stats_x_axis_rot, adStatsAmendedSpec, hr]

/-- Witness for C3 (amended) at rotation 90. -/
theorem ad_stats_rot_characterization_witness :
    ad_stats_x_axis_rot imagerA 90 = adStatsAmendedSpec imagerA 90 :=
  ad_stats_rot_characterization imagerA 90 (by decide)

/-! ## AutoSelectGuard: `pick_cam` (source lines 590-610)

The callback reads `self.auto_switch_cam`, takes the camera lock
(single decision, serialized; the lock itself adds nothing to the
sequential semantics modelled here), scans `self.imagers()` — the
active imagers in configured order, as (name, position) pairs — and
possibly requests a combo-box switch when the chosen imager differs
from `combo.currentText()`.  The model returns `some name` for a
requested switch and `none` for no widget change. -/

/-- Result of the scanning loop inside `pick_cam`. -/
inductive PickResult where
  | abortUnknown
  | chosen (name : String)
  | noneIn
deriving DecidableEq

/-- The loop `for img in self.imagers(): if img.position == "Unknown":
return; elif img.position == "IN": chosen_imager = img; break`. -/
def pickScan : List (String × String) → PickResult
  | [] => .noneIn
  | (n, pos) :: rest =>
    if pos = "Unknown" then .abortUnknown
    else if pos = "IN" then .chosen n
    else pickScan rest

/-- Embedding of `SkywalkerGui.pick_cam`: `auto` is
`self.auto_switch_cam`, `imagers` is `self.imagers()` as (name,
position) pairs in configured order, `current` is
`combo.currentText()`.  Returns the switch request issued via
`combo.setCurrentIndex`, if any. -/
def pick_cam (auto : Bool) (imagers : List (String × String))
    (current : String) : Option String :=
  if auto then
    match pickScan imagers with
    | .abortUnknown => none
    | .noneIn => none
    | .chosen n => if n ≠ current then some n else none
  else none

theorem pickScan_append_skip (pre rest : List (String × String))
    (h : ∀ q ∈ pre, q.2 ≠ "Unknown" ∧ q.2 ≠ "IN") :
    pickScan (pre ++ rest) = pickScan rest := by
  induction pre with
  | nil => rfl
  | cons q pre ih =>
    have hq := h q (by simp)
    simp only [List.cons_append, pickScan, if_neg hq.1, if_neg hq.2]
    exact ih (fun p hp => h p (by simp [hp]))

/-- C5 counterexample: with imagers [A(IN), B(Unknown)] in configured
order and the enable flag set, B's position is unknown, yet the guard
does not abort: it switches the display (currently on B) to A.  The
claim says any unknown position aborts the whole decision with no
widget change. -/
theorem auto_select_unknown_counterexample :
    ("B", "Unknown") ∈ [("A", "IN"), ("B", "Unknown")] ∧
    pick_cam true [("A", "IN"), ("B", "Unknown")] "B" = some "A" := by
  constructor
  · simp
  · rfl

/-- C5 (amended): with the enable flag set the guard scans the
configured imagers in order and stops at the first imager whose
position is "Unknown" or "IN": an Unknown encountered before any IN
imager aborts the decision with no widget change; otherwise the first
IN imager is selected (a switch is requested exactly when it differs
from the current display); if the scan finds neither, the selection is
left unchanged.  In particular [A(IN), B(IN)] selects A, and
[A(Unknown), B(IN)] makes no switch.  With the flag clear nothing
happens. -/
theorem auto_select_decision (pre rest : List (String × String))
    (bname n current : String)
    (hpre : ∀ q ∈ pre, q.2 ≠ "Unknown" ∧ q.2 ≠ "IN") :
    (pick_cam true (pre ++ (bname, "Unknown") :: rest) current = none) ∧
    (pick_cam true (pre ++ (n, "IN") :: rest) current =
      if n ≠ current then some n else none) ∧
    (pick_cam true pre current = none) ∧
    (pick_cam false (pre ++ rest) current = none) ∧
    (pick_cam true [("A", "IN"), ("B", "IN")] "B" = some "A") ∧
    (pick_cam true [("A", "Unknown"), ("B", "IN")] current = none) := by
  refine ⟨?_, ?_, ?_, rfl, rfl, rfl⟩
  · simp only [pick_cam, pickScan_append_skip pre _ hpre, pickScan,
      if_pos rfl, if_true]
  · simp only [pick_cam, pickScan_append_skip pre _ hpre, pickScan,
      if_neg (show ¬ ("IN" = "Unknown") by decide), if_pos rfl, if_true]
  · have hnone : pickScan (pre ++ []) = pickScan [] :=
      pickScan_append_skip pre [] hpre
    rw [List.append_nil] at hnone
    simp only [pick_cam, hnone, pickScan, if_true]

/-- Witness for C5 (amended): concrete instantiation with one OUT
imager ahead of the trigger position. -/
theorem auto_select_decision_witness :
    (pick_cam true [("C", "OUT"), ("B", "Unknown")] "B" = none) ∧
    (pick_cam true [("C", "OUT"), ("A", "IN")] "B" =
      if "A" ≠ "B" then some "A" else none) ∧
    (pick_cam true [("C", "OUT")] "B" = none) ∧
    (pick_cam false [("C", "OUT")] "B" = none) ∧
    (pick_cam true [("A", "IN"), ("B", "IN")] "B" = some "A") ∧
    (pick_cam true [("A", "Unknown"), ("B", "IN")] "B" = none) := by
  have h := auto_select_decision [("C", "OUT")] [] "B" "A" "B"
    (by intro q hq; simp at hq; simp [hq])
  simpa using h

/-! ## BindingGroup: attribute resolution and rebinding
(`ObjWidgetGroup.get_pvnames` / `nested_getattr`, lines 1073-1095, and
`change_obj` / `change_pvs` / `setup`, lines 986-1071, 837-842)

Python objects reachable from a device are modelled as nested
attribute dictionaries; a missing attribute makes `getattr` raise
`AttributeError`, modelled as `none` here and as `Except.error` where
the source lets the exception escape. -/

/-- A Python object as seen through `getattr`: either a nested object
with named fields, or a string leaf (pvname values). -/
inductive PyVal where
  | obj (fields : List (String × PyVal))
  | str (s : String)

/-- `getattr(obj, name)` with `none` for `AttributeError`. String
leaves expose no attributes used by this code. -/
def getattrOpt : PyVal → String → Option PyVal
  | .obj fields, name => fields.lookup name
  | .str _, _ => none

/-- String value of a leaf; pvname attributes are always strings in
the source, so the `.obj` case is unreachable on real inputs. -/
def pyStrVal : PyVal → String
  | .str s => s
  | .obj _ => ""

/-- `obj.name` for a device (devices always carry a name). -/
def pyName (o : PyVal) : String :=
  pyStrVal ((getattrOpt o "name").getD (.str ""))

def getattrChain (o : PyVal) : List String → Except Unit PyVal
  | [] => .ok o
  | step :: rest =>
    match getattrOpt o step with
    | some v => getattrChain v rest
    | none => .error ()

/-- `attr.split('.')`, written as structural recursion over the
character list so the kernel can evaluate it. -/
def splitStepsAux : List Char → List Char → List String
  | [], acc => [String.mk acc.reverse]
  | c :: rest, acc =>
    if c = '.' then String.mk acc.reverse :: splitStepsAux rest []
    else splitStepsAux rest (c :: acc)

def splitSteps (s : String) : List String :=
  splitStepsAux s.toList []

/-- Embedding of `ObjWidgetGroup.nested_getattr`: `attr.split('.')`
then repeated `getattr`; an `AttributeError` anywhere in the chain
escapes (the source has no try/except here). -/
def nested_getattr (obj : PyVal) (attr : String) : Except Unit PyVal :=
  getattrChain obj (splitSteps attr)

/-- The body of the loop in `get_pvnames`: `sig = nested_getattr(...)`
is *outside* the try, so its `AttributeError` propagates; only the
`sig.pvname` access is guarded, a missing `pvname` appending `None`. -/
def get_pvnames_loop (o : PyVal) : List String → Except Unit (List (Option String))
  | [] => .ok []
  | attr :: rest =>
    match nested_getattr o attr with
    | .error e => .error e
    | .ok sig =>
      let entry : Option String :=
        match getattrOpt sig "pvname" with
        | some v => some (pyStrVal v)
        | none => none
      match get_pvnames_loop o rest with
      | .error e => .error e
      | .ok l => .ok (entry :: l)

/-- Embedding of `ObjWidgetGroup.get_pvnames` (lines 1073-1086):
returns `None` for a null object, otherwise the per-attr pvname list;
raises if any attribute chain fails to resolve. -/
def get_pvnames (attrs : List String) (obj : Option PyVal) :
    Except Unit (Option (List (Option String))) :=
  match obj with
  | none => .ok none
  | some o => (get_pvnames_loop o attrs).map some

/-- The value a fully-guarded resolution would give one slot: the
pvname when the signal resolves and has one, `None` otherwise. -/
def pvnameSlot (o : PyVal) (attr : String) : Option String :=
  match nested_getattr o attr with
  | .ok sig =>
    match getattrOpt sig "pvname" with
    | some v => some (pyStrVal v)
    | none => none
  | .error _ => none

def exceptOk {ε α : Type} : Except ε α → Bool
  | .ok _ => true
  | .error _ => false

/-- State of an `ObjWidgetGroup`: the bound object, the fixed attr
paths, the label text, one channel string per widget (`''` = empty
channel), and the established pydm connections (modelled as the
non-empty channels currently connected). -/
structure ObjGroupState where
  obj : Option PyVal
  attrs : List String
  labelText : String
  channels : List String
  subs : List String

/-- `pvname -> channel` assignment from `PydmWidgetGroup.setup`:
`'' ` for `None`, else `'ca://' + pvname`. -/
def chanOf : Option String → String
  | none => ""
  | some p => "ca://" ++ p

/-- Embedding of `PydmWidgetGroup.setup` plus `BaseWidgetGroup.setup`:
the label text is changed only when `name` is not `None` (source line
841: `if None not in (self.label, name)`); a `None` pvname list is
replaced by `[None] * len(widgets)`; channels are assigned by
`zip(widgets, pvnames)`, so widgets beyond the pvname list keep their
old channel. -/
def pydm_setup (st : ObjGroupState) (pvnames : Option (List (Option String)))
    (name : Option String) : ObjGroupState :=
  let st1 := match name with
    | some n => { st with labelText := n }
    | none => st
  let pvl := pvnames.getD (List.replicate st1.channels.length none)
  { st1 with channels :=
      (st1.channels.zip pvl).map (fun p => chanOf p.2) ++
        st1.channels.drop pvl.length }

/-- Embedding of `PydmWidgetGroup.change_pvs`: drop all connections,
run setup, establish connections for the new channels. -/
def change_pvs (st : ObjGroupState) (pvnames : Option (List (Option String)))
    (name : Option String) : ObjGroupState :=
  let st1 := { st with subs := ([] : List String) }
  let st2 := pydm_setup st1 pvnames name
  { st2 with subs := st2.channels.filter (fun c => c != "") }

/-- Embedding of `ObjWidgetGroup.change_obj` (lines 1056-1071).  If
`get_pvnames` raises, the exception escapes the bind (the mutated
`self.obj` of the partially-executed Python body is not represented in
the error case; no theorem below depends on it). -/
def change_obj (st : ObjGroupState) (obj : Option PyVal) :
    Except Unit ObjGroupState :=
  match get_pvnames st.attrs obj with
  | .error e => .error e
  | .ok pvnames =>
    let name : Option String := match obj with
      | none => none
      | some o => some (pyName o)
    .ok (change_pvs { st with obj := obj } pvnames name)

theorem get_pvnames_loop_ok (o : PyVal) (attrs : List String)
    (h : ∀ a ∈ attrs, exceptOk (nested_getattr o a) = true) :
    get_pvnames_loop o attrs = .ok (attrs.map (pvnameSlot o)) := by
  induction attrs with
  | nil => rfl
  | cons a rest ih =>
    have ha := h a (by simp)
    have hrest := ih (fun b hb => h b (by simp [hb]))
    simp only [get_pvnames_loop, List.map_cons, hrest]
    cases hres : nested_getattr o a with
    | error e => rw [hres] at ha; simp [exceptOk] at ha
    | ok sig => simp [pvnameSlot, hres]

theorem get_pvnames_loop_err (o : PyVal) (attrs : List String)
    (h : ∃ a ∈ attrs, exceptOk (nested_getattr o a) = false) :
    get_pvnames_loop o attrs = .error () := by
  induction attrs with
  | nil => simp at h
  | cons a rest ih =>
    simp only [get_pvnames_loop]
    cases hres : nested_getattr o a with
    | error e => rfl
    | ok sig =>
      have hrest : ∃ b ∈ rest, exceptOk (nested_getattr o b) = false := by
        rcases h with ⟨b, hb, hfalse⟩
        rcases List.mem_cons.mp hb with hba | hbr
        · subst hba; rw [hres] at hfalse; simp [exceptOk] at hfalse
        · exact ⟨b, hbr, hfalse⟩
      rw [ih hrest]

theorem zip_map_snd_of_length_eq {α β γ : Type} (f : β → γ)
    (l1 : List α) (l2 : List β) (h : l1.length = l2.length) :
    (l1.zip l2).map (fun p => f p.2) = l2.map f := by
  induction l1 generalizing l2 with
  | nil => cases l2 with
    | nil => rfl
    | cons b bs => simp at h
  | cons a as ih =>
    cases l2 with
    | nil => simp at h
    | cons b bs =>
      simp only [List.zip_cons_cons, List.map_cons]
      rw [ih bs (by simpa using h)]

theorem change_pvs_some (st : ObjGroupState) (pvl : List (Option String))
    (nm : Option String) (h : st.channels.length = pvl.length) :
    (change_pvs st (some pvl) nm).channels = pvl.map chanOf ∧
    (change_pvs st (some pvl) nm).obj = st.obj := by
  cases nm with
  | none =>
    simp only [change_pvs, pydm_setup, Option.getD]
    refine ⟨?_, trivial⟩
    rw [zip_map_snd_of_length_eq _ _ _ h, ← h, List.drop_length,
      List.append_nil]
  | some n =>
    simp only [change_pvs, pydm_setup, Option.getD]
    refine ⟨?_, trivial⟩
    rw [zip_map_snd_of_length_eq _ _ _ h, ← h, List.drop_length,
      List.append_nil]

theorem change_pvs_null (st : ObjGroupState) :
    (change_pvs st none none).channels =
      List.replicate st.channels.length "" ∧
    (change_pvs st none none).subs = [] ∧
    (change_pvs st none none).labelText = st.labelText ∧
    (change_pvs st none none).obj = st.obj := by
  have hchan : (change_pvs st none none).channels =
      List.replicate st.channels.length "" := by
    simp only [change_pvs, pydm_setup, Option.getD]
    rw [zip_map_snd_of_length_eq _ _ _ (by simp), List.length_replicate,
      List.drop_length, List.append_nil, List.map_replicate]
    rfl
  refine ⟨hchan, ?_, rfl, rfl⟩
  show (change_pvs st none none).channels.filter (fun c => c != "") = []
  rw [hchan, List.filter_eq_nil_iff]
  intro a ha
  have haeq : a = "" := List.eq_of_mem_replicate ha
  simp [haeq]

/-- A concrete bound group used for counterexamples and witnesses. -/
def widgetDevice : PyVal :=
  .obj [("name", .str "dev1"),
        ("pitch", .obj [("user_readback", .obj [("pvname", .str "DEV1:RBV")]),
                        ("user_setpoint", .obj [])])]

def boundGroup : ObjGroupState :=
  { obj := some widgetDevice
    attrs := ["pitch.user_readback", "pitch.user_setpoint"]
    labelText := "dev1"
    channels := ["ca://DEV1:RBV", ""]
    subs := ["ca://DEV1:RBV"] }

/-- C7 counterexample: binding `boundGroup` to a device that lacks the
`pitch` attribute raises the resolution error out of the bind instead
of yielding a null channel and continuing (the claim says a missing
attribute never raises to the caller). -/
theorem resolution_failure_counterexample :
    change_obj boundGroup (some (.obj [("name", .str "bare")])) = .error () := by
  rfl

/-- C7 (amended): only the final `pvname` access is guarded.  If every
attribute chain of the group resolves, the bind succeeds and each slot
independently gets its pvname channel, with `None` (empty channel) for
a resolved signal that lacks a `pvname` — binding continues over the
remaining slots.  But if any attribute chain fails to resolve, the
whole bind raises `AttributeError` to the caller. -/
theorem resolution_failure_amended (st : ObjGroupState) (o : PyVal)
    (hlen : st.channels.length = st.attrs.length) :
    ((∀ a ∈ st.attrs, exceptOk (nested_getattr o a) = true) →
      ∃ st2, change_obj st (some o) = .ok st2 ∧
        st2.channels = st.attrs.map (fun a => chanOf (pvnameSlot o a)) ∧
        st2.obj = some o) ∧
    ((∃ a ∈ st.attrs, exceptOk (nested_getattr o a) = false) →
      change_obj st (some o) = .error ()) := by
  constructor
  · intro hok
    have hco : change_obj st (some o) =
        .ok (change_pvs { st with obj := some o }
          (some (st.attrs.map (pvnameSlot o))) (some (pyName o))) := by
      simp only [change_obj, get_pvnames, get_pvnames_loop_ok o st.attrs hok,
        Except.map]
    have hfields := change_pvs_some { st with obj := some o }
      (st.attrs.map (pvnameSlot o)) (some (pyName o)) (by simpa using hlen)
    refine ⟨_, hco, ?_, hfields.2⟩
    rw [hfields.1, List.map_map]
    rfl
  · intro hfail
    simp only [change_obj, get_pvnames, get_pvnames_loop_err o st.attrs hfail,
      Except.map]

/-- Witness for C7 (amended): on `boundGroup`, whose second signal has
no pvname, rebinding to `widgetDevice` succeeds with channels
`[ca://DEV1:RBV, '']`; and a device missing the `pitch` attribute
makes the bind raise. -/
theorem resolution_failure_amended_witness :
    (∃ st2, change_obj boundGroup (some widgetDevice) = .ok st2 ∧
      st2.channels =
        boundGroup.attrs.map (fun a => chanOf (pvnameSlot widgetDevice a)) ∧
      st2.obj = some widgetDevice) ∧
    change_obj boundGroup (some (.obj [])) = .error () := by
  have h1 := resolution_failure_amended boundGroup widgetDevice (by rfl)
  have h2 := resolution_failure_amended boundGroup (.obj []) (by rfl)
  exact ⟨h1.1 (by decide), h2.2 (by decide)⟩

/-- C8 counterexample: `bind(null)` does *not* clear the label text.
`BaseWidgetGroup.setup` skips `label.setText` when `name` is `None`,
so after `change_obj(None)` the label still reads `dev1`. -/
theorem bind_null_label_counterexample :
    (change_obj boundGroup none).toOption.map ObjGroupState.labelText =
      some "dev1" ∧ "dev1" ≠ "" := by
  constructor
  · rfl
  · decide

/-- C8 (amended): binding a group to a null device always succeeds and
leaves the group unbound and quiescent — every widget channel becomes
the empty channel and no live subscriptions remain — but the label
text is left unchanged rather than cleared. -/
theorem bind_null_quiescent (st : ObjGroupState) :
    ∃ st2, change_obj st none = .ok st2 ∧
      st2.channels = List.replicate st.channels.length "" ∧
      st2.subs = [] ∧
      st2.labelText = st.labelText ∧
      st2.obj = none := by
  have hco : change_obj st none =
      .ok (change_pvs { st with obj := none } none none) := rfl
  have hfields := change_pvs_null { st with obj := none }
  exact ⟨_, hco, hfields.1, hfields.2.1, hfields.2.2.1, hfields.2.2.2⟩

/-! ## ProcedureOrchestrator: `on_start_button` (lines 413-485),
`on_procedure_combo_changed` (lines 362-400), goal groups
(`ValueWidgetGroup`, lines 869-966) and the helper accessors
(`active_system` / `goals` / `imagers_padded`, lines 668-741).

The mutable `SkywalkerGui` object becomes `GuiState`.  A goal entry
widget is modelled by its parsed numeric content (`QLineEdit` text is
empty/unparsable iff the parsed value is `None`, and `ValueWidgetGroup`
only ever consumes the parsed value), plus its label text.  The
run-engine call `self.RE(plan)` is an oracle parameter
`runPlan : Plan → Except String Unit`; an `Except.error` models the
invocation raising (including a timeout).  Python dicts become
association lists whose lookup agrees with dict lookup. -/

/-- `self.RE.state`, owned by the external run-engine. -/
inductive REState where
  | idle
  | running
  | paused
deriving DecidableEq

/-- One entry of `self.system`: associated mirror, imager, slits and
camera rotation (`get_system`, lines 64-79). -/
structure SysEntry where
  mirror : String
  imager : Imager
  slits : Option String
  rotation : Int
deriving DecidableEq

/-- A `ValueWidgetGroup` goal slot: the label text and the parsed
numeric content of the line edit (`None` = empty or unparsable;
`ValueWidgetGroup.value`, lines 943-954). -/
structure GoalGroup where
  labelText : String
  content : Option ℚ
deriving DecidableEq

/-- The orchestrator state: run-engine state, selected procedure, the
static `alignments` and `system` tables, the four goal slots, the
shared `config_cache` dict (which is also the goal groups' value
cache), the mirrors' `nominal_position` attributes, and the
auto-camera-switch flag. -/
structure GuiState where
  reState : REState
  procedure : String
  alignments : List (String × List (List String))
  system : List (String × SysEntry)
  goalGroups : List GoalGroup
  configCache : List (String × ℚ)
  nominalPos : List (String × ℚ)
  autoSwitchCam : Bool
deriving DecidableEq

def MAX_MIRRORS : ℕ := 4

def defaultSysEntry : SysEntry :=
  { mirror := "", slits := none, rotation := 0,
    imager := { name := "", arraySizeX := ⟨"", 0⟩, arraySizeY := ⟨"", 0⟩,
                centroidX := ⟨"", 0⟩, centroidY := ⟨"", 0⟩ } }

/-- `self.system[key]`; the GUI only looks up keys listed in
`alignments`, which are all present in `system`, so the default is
never reached on the states the theorems use. -/
def sysGet (st : GuiState) (key : String) : SysEntry :=
  (st.system.lookup key).getD defaultSysEntry

/-- `SkywalkerGui.active_system` (lines 668-675): concatenation of the
active procedure's key groups. -/
def activeSystem (st : GuiState) : List String :=
  ((st.alignments.lookup st.procedure).getD []).flatten

/-- `SkywalkerGui.goals` (lines 695-700). -/
def goals (st : GuiState) : List (Option ℚ) :=
  st.goalGroups.map (fun g => g.content)

/-- Python dict assignment `d[k] = v` on an association list: only the
lookup behaviour matters to the GUI (iteration order of the cache is
never used). -/
def dictSet (l : List (String × ℚ)) (k : String) (v : ℚ) : List (String × ℚ) :=
  (k, v) :: l.filter (fun p => p.1 != k)

/-- `ValueWidgetGroup.save_value` (lines 920-927): store the current
value under the label text.  `label.text()` is a Python `str`, never
`None`, so `if None not in (old_name, old_value)` is simply the test
that the parsed value is not `None`. -/
def save_value (g : GoalGroup) (cache : List (String × ℚ)) :
    List (String × ℚ) :=
  match g.content with
  | some v => dictSet cache g.labelText v
  | none => cache

/-- `ValueWidgetGroup.load_value` (lines 929-935): overwrite the widget
with a cached value for `name`, if any; `cache.get(None)` is `None`. -/
def load_value (g : GoalGroup) (cache : List (String × ℚ))
    (name : Option String) : GoalGroup :=
  match name with
  | none => g
  | some n =>
    match cache.lookup n with
    | some v => { g with content := some v }
    | none => g

/-- `ValueWidgetGroup.setup` (lines 909-918): set the label/checkbox
text when `name` is not `None` (the checkbox shares the label text and
is not modelled separately), then `load_value(name)`. -/
def vw_setup (g : GoalGroup) (cache : List (String × ℚ))
    (name : Option String) : GoalGroup :=
  let g1 := match name with
    | some n => { g with labelText := n }
    | none => g
  load_value g1 cache name

/-- `ValueWidgetGroup.clear` (lines 937-941). -/
def vw_clear (g : GoalGroup) : GoalGroup :=
  { g with content := none }

/-- `SkywalkerGui.imagers_padded` (lines 723-738): active imager names,
`None`-padded to `MAX_MIRRORS`. -/
def imagersPadded (st : GuiState) : List (Option String) :=
  let l := (activeSystem st).map (fun k => some (sysGet st k).imager.name)
  l ++ List.replicate (MAX_MIRRORS - l.length) none

/-- `SkywalkerGui.on_procedure_combo_changed` (lines 362-400): set the
procedure; save then clear every goal slot (the shared cache is
threaded left to right, as the Python dict mutation is); then re-setup
the slots that have an imager in the new procedure, leaving the
trailing hidden slots untouched (`zip` semantics).  The mirror-group
rebinding in the same slot is display-only (it touches neither goals
nor cache) and is not represented. -/
def on_procedure_combo_changed (st : GuiState) (procName : String) : GuiState :=
  let st1 := { st with procedure := procName }
  let step := st1.goalGroups.foldl
    (fun (acc : List GoalGroup × List (String × ℚ)) g =>
      (acc.1 ++ [vw_clear g], save_value g acc.2))
    ([], st1.configCache)
  let padded := imagersPadded st1
  let groups2 :=
    ((step.1.zip padded).map (fun p =>
      match p.2 with
      | none => p.1
      | some n => vw_setup p.1 step.2 (some n))) ++
    step.1.drop padded.length
  { st1 with goalGroups := groups2, configCache := step.2 }

/-- The plan descriptor handed to the external `skywalker(...)` plan
constructor and then to `self.RE` (lines 450-477): device name lists,
readback keys, goals, and the fixed scan parameters. -/
structure Plan where
  yags : List String
  mots : List String
  det_rbv : List String
  mot_rbv : String
  goals : List ℚ
  first_steps : ℚ
  tolerances : ℚ
  averages : ℚ
  timeout : ℚ
  tol_scaling : ℚ
deriving DecidableEq

/-- Build one group's plan (loop body of `on_start_button`, lines
437-476): per device, pick the rotated readback key and convert the
canonical goal to native space via `mod_x` (`applyMod`); then apply the
source's own line 470 `goals = [480 - g for g in goals]` ("Temporary
fix: undo skywalker's goal mangling") before handing the list to the
plan constructor.  `zip(rots, yags, raw_goals)` truncates to the
shorter list, while `yags`/`mots` keep the full key set. -/
def mkPlan (st : GuiState) (keySet : List String) (rawGoals : List ℚ) : Plan :=
  let entries := keySet.map (sysGet st)
  let pairs := entries.zip rawGoals
  let det_rbv := pairs.map (fun p =>
    (ad_stats_x_axis_rot p.1.imager p.1.rotation).key)
  let convGoals := pairs.map (fun p =>
    applyMod (ad_stats_x_axis_rot p.1.imager p.1.rotation).mod_x p.2)
  { yags := entries.map (fun e => e.imager.name),
    mots := entries.map (fun e => e.mirror),
    det_rbv := det_rbv, mot_rbv := "pitch",
    goals := convGoals.map (fun g => 480 - g),
    first_steps := 6, tolerances := 5, averages := 100, timeout := 600,
    tol_scaling := 8 }

/-- Modelled from the spec (design note on the line 470 hack): the
external `skywalker` plan constructor applies its own `480 - g` "goal
mangling" to each goal it receives; line 470 exists to pre-compensate
for it, so the native target the executed plan actually drives toward
is `480 - g` for each submitted goal `g`. -/
def skywalkerEffectiveGoals (p : Plan) : List ℚ :=
  p.goals.map (fun g => 480 - g)

/-- `for mot in mots: try: mot.nominal_position = self.config_cache[
mot.name] except KeyError: pass` (lines 444-448). -/
def restoreNominals (cache nominal : List (String × ℚ))
    (mots : List String) : List (String × ℚ) :=
  mots.foldl (fun acc mot =>
    match cache.lookup mot with
    | some v => dictSet acc mot v
    | none => acc) nominal

/-- The `for key_set in alignment` loop (lines 437-477): per group,
restore mirror nominal positions, build the plan, invoke it through
the run-engine; an exception from `self.RE(plan)` escapes to the
handler at line 482, so no later group is attempted.  Returns the
plans invoked in order, the final nominal positions, and whether the
loop completed without an exception. -/
def runGroups (st : GuiState) (runPlan : Plan → Except String Unit)
    (rawGoals : List ℚ) (nominal : List (String × ℚ)) :
    List (List String) → List Plan × List (String × ℚ) × Bool
  | [] => ([], nominal, true)
  | keySet :: rest =>
    let entries := keySet.map (sysGet st)
    let nominal1 := restoreNominals st.configCache nominal
      (entries.map (fun e => e.mirror))
    let plan := mkPlan st keySet rawGoals
    match runPlan plan with
    | .ok _ =>
      let r := runGroups st runPlan rawGoals nominal1 rest
      (plan :: r.1, r.2.1, r.2.2)
    | .error _ => ([plan], nominal1, false)

/-- The observable outcome of one `on_start_button` call: the state
afterwards, the plans submitted to the run-engine in order, the
operator-visible messages, whether `RE.resume()` was requested, and
whether `auto_switch_cam` was ever enabled during the call (the
`finally` clause always leaves the flag itself `False`). -/
structure StartResult where
  state : GuiState
  invoked : List Plan
  msgs : List String
  resumed : Bool
  enabledAuto : Bool
deriving DecidableEq

def fillGoalsMsg : String := "Please fill all goal fields before alignment."

/-- Embedding of `SkywalkerGui.on_start_button` (lines 413-485).

The validation loop (`for i, goal in enumerate(self.goals()): if i >=
active_size: break; elif goal is None: ...return`) inspects exactly the
first `active_size` goal values and returns at the first `None`; this
is the `any isNone` test on `take active_size` below, and on success
`raw_goals` is those values.  On the paused branch the engine is
resumed; on the running branch neither `if` matches and only the
`finally` runs. -/
def on_start_button (st : GuiState) (runPlan : Plan → Except String Unit) :
    StartResult :=
  if st.reState = .idle then
    let activeSize := (activeSystem st).length
    let firstK := (goals st).take activeSize
    if firstK.any (fun g => g.isNone) then
      { state := { st with autoSwitchCam := false }, invoked := [],
        msgs := [fillGoalsMsg], resumed := false, enabledAuto := false }
    else
      let rawGoals := firstK.filterMap id
      let alignment := (st.alignments.lookup st.procedure).getD []
      let r := runGroups st runPlan rawGoals st.nominalPos alignment
      { state := { st with autoSwitchCam := false, nominalPos := r.2.1 },
        invoked := r.1, msgs := [], resumed := false, enabledAuto := true }
  else if st.reState = .paused then
    { state := { st with autoSwitchCam := false }, invoked := [],
      msgs := [], resumed := true, enabledAuto := true }
  else
    { state := { st with autoSwitchCam := false }, invoked := [],
      msgs := [], resumed := false, enabledAuto := false }

/-- The raw goal list used by a validated start. -/
def rawGoalsOf (st : GuiState) : List ℚ :=
  ((goals st).take (activeSystem st).length).filterMap id

/-! ### Concrete configurations for the start-button claims -/

/-- Rotation-0 imager for the end-to-end scenario. -/
def imRot0 : Imager :=
  { name := "im1", arraySizeX := ⟨"im1_size_x", 640⟩,
    arraySizeY := ⟨"im1_size_y", 480⟩,
    centroidX := ⟨"im1_cent_x", 0⟩, centroidY := ⟨"im1_cent_y", 0⟩ }

/-- Rotation-180 imager with native x size 500. -/
def imRot180 : Imager :=
  { name := "im2", arraySizeX := ⟨"im2_size_x", 500⟩,
    arraySizeY := ⟨"im2_size_y", 400⟩,
    centroidX := ⟨"im2_cent_x", 0⟩, centroidY := ⟨"im2_cent_y", 0⟩ }

/-- Two imagers at rotations 0 and 180, one device group each, both
goal slots filled with the canonical goal 480. -/
def twoImagerState : GuiState :=
  { reState := .idle, procedure := "P2",
    alignments := [("P2", [["k1"], ["k2"]])],
    system := [("k1", { mirror := "mot1", imager := imRot0,
                        slits := none, rotation := 0 }),
               ("k2", { mirror := "mot2", imager := imRot180,
                        slits := none, rotation := 180 })],
    goalGroups := [{ labelText := "im1", content := some 480 },
                   { labelText := "im2", content := some 480 },
                   { labelText := "", content := none },
                   { labelText := "", content := none }],
    configCache := [], nominalPos := [], autoSwitchCam := false }

/-- C2: End-to-end goal conversion.  With two imagers at rotations 0
and 180 and canonical goal 480 entered for the 180-degree imager
(native x size 500), `start()` submits to the run-engine, through the
`skywalker` constructor whose internal `480 - g` mangling the source's
line 470 pre-compensates, an effective native target of `500 - 480 =
20` for that imager's group and 480 unchanged for the rotation-0
imager's group; the raw goal arguments passed to the constructor are
the pre-compensated `480 - 480` and `480 - 20`. -/
theorem end_to_end_goal_conversion :
    (on_start_button twoImagerState (fun _ => .ok ())).invoked.map
        skywalkerEffectiveGoals = [[480], [500 - 480]] ∧
    (on_start_button twoImagerState (fun _ => .ok ())).invoked.map
        Plan.goals = [[480 - 480], [480 - (500 - 480)]] ∧
    (on_start_button twoImagerState (fun _ => .ok ())).invoked.map
        Plan.yags = [["im1"], ["im2"]] := by
  refine ⟨?_, ?_, ?_⟩ <;>
    · simp +decide [on_start_button, twoImagerState, activeSystem, goals,
        runGroups, mkPlan, sysGet, ad_stats_x_axis_rot, applyMod,
        skywalkerEffectiveGoals, restoreNominals, imRot0, imRot180,
        defaultSysEntry, List.lookup, rawGoalsOf]

/-- C4: Goal validation.  Whenever `start()` runs in the Idle state and
any of the first K goal slots is null (K = device count of the active
procedure), it is a no-op: the fill-all-goals message is reported, no
plan is invoked, the run state stays Idle, and the auto-select guard
is never enabled (and no resume is requested). -/
theorem goal_validation_no_op (st : GuiState)
    (runPlan : Plan → Except String Unit)
    (hidle : st.reState = .idle)
    (hnull : none ∈ (goals st).take (activeSystem st).length) :
    (on_start_button st runPlan).invoked = [] ∧
    (on_start_button st runPlan).msgs = [fillGoalsMsg] ∧
    (on_start_button st runPlan).state.reState = .idle ∧
    (on_start_button st runPlan).enabledAuto = false ∧
    (on_start_button st runPlan).state.autoSwitchCam = false ∧
    (on_start_button st runPlan).resumed = false := by
  have hcond : ((goals st).take (activeSystem st).length).any
      (fun g => g.isNone) = true := by
    rw [List.any_eq_true]
    exact ⟨none, hnull, rfl⟩
  simp [on_start_button, hidle, hcond]

/-- A two-device procedure with only one goal filled, for the C4
witness. -/
def halfFilledState : GuiState :=
  { twoImagerState with
    goalGroups := [{ labelText := "im1", content := none },
                   { labelText := "im2", content := some 480 },
                   { labelText := "", content := none },
                   { labelText := "", content := none }] }

/-- Witness for C4: two active devices, first goal empty. -/
theorem goal_validation_no_op_witness :
    (on_start_button halfFilledState (fun _ => .ok ())).invoked = [] ∧
    (on_start_button halfFilledState (fun _ => .ok ())).msgs =
      [fillGoalsMsg] ∧
    (on_start_button halfFilledState (fun _ => .ok ())).state.reState =
      .idle ∧
    (on_start_button halfFilledState (fun _ => .ok ())).enabledAuto =
      false ∧
    (on_start_button halfFilledState
      (fun _ => .ok ())).state.autoSwitchCam = false ∧
    (on_start_button halfFilledState (fun _ => .ok ())).resumed = false :=
  goal_validation_no_op halfFilledState (fun _ => .ok ()) rfl (by decide)

theorem runGroups_all_ok (st : GuiState)
    (runPlan : Plan → Except String Unit) (rawGoals : List ℚ)
    (nominal : List (String × ℚ)) (groups : List (List String))
    (h : ∀ k, k < groups.length →
      exceptOk (runPlan (mkPlan st (groups.getD k []) rawGoals)) = true) :
    (runGroups st runPlan rawGoals nominal groups).1 =
      groups.map (fun ks => mkPlan st ks rawGoals) := by
  induction groups generalizing nominal with
  | nil => rfl
  | cons g rest ih =>
    have h0 := h 0 (by simp)
    simp only [runGroups]
    cases hrp : runPlan (mkPlan st g rawGoals) with
    | error e =>
      rw [show (g :: rest).getD 0 [] = g from rfl, hrp] at h0
      simp [exceptOk] at h0
    | ok u =>
      simp only [List.map_cons, List.cons.injEq, true_and]
      exact ih _ (fun k hk => by
        have := h (k + 1) (by simpa using Nat.succ_lt_succ hk)
        simpa using this)

theorem runGroups_first_error (st : GuiState)
    (runPlan : Plan → Except String Unit) (rawGoals : List ℚ)
    (nominal : List (String × ℚ)) (groups : List (List String)) (i : ℕ)
    (hi : i < groups.length)
    (hok : ∀ k, k < i →
      exceptOk (runPlan (mkPlan st (groups.getD k []) rawGoals)) = true)
    (hfail : exceptOk (runPlan (mkPlan st (groups.getD i []) rawGoals))
      = false) :
    (runGroups st runPlan rawGoals nominal groups).1 =
      (groups.map (fun ks => mkPlan st ks rawGoals)).take (i + 1) := by
  induction groups generalizing nominal i with
  | nil => exact absurd hi (Nat.not_lt_zero i)
  | cons g rest ih =>
    cases i with
    | zero =>
      rw [show (g :: rest).getD 0 [] = g from rfl] at hfail
      simp only [runGroups]
      cases hrp : runPlan (mkPlan st g rawGoals) with
      | error e => simp
      | ok u => rw [hrp] at hfail; simp [exceptOk] at hfail
    | succ j =>
      have h0 := hok 0 (Nat.succ_pos j)
      rw [show (g :: rest).getD 0 [] = g from rfl] at h0
      simp only [runGroups]
      cases hrp : runPlan (mkPlan st g rawGoals) with
      | error e => rw [hrp] at h0; simp [exceptOk] at h0
      | ok u =>
        simp only [List.map_cons, List.take_succ_cons, List.cons.injEq,
          true_and]
        refine ih _ j (by simpa using hi) ?_ ?_
        · intro k hk
          have := hok (k + 1) (Nat.succ_lt_succ hk)
          simpa using this
        · simpa using hfail

/-- C6: Sequential group execution with first-error abort.  For every
procedure, a validated `start()` submits the groups' plans strictly in
their listed order: if every invocation succeeds, exactly the full
plan list is invoked in order; and if the invocation of group `i`
raises (or times out) after groups `0..i-1` succeeded, the invoked
plans are exactly the first `i + 1` — no later group in the same
`start()` sequence is ever invoked. -/
theorem sequential_group_first_error_abort (st : GuiState)
    (runPlan : Plan → Except String Unit)
    (hidle : st.reState = .idle)
    (hfilled : ¬ none ∈ (goals st).take (activeSystem st).length)
    (groups : List (List String))
    (hgroups : groups = (st.alignments.lookup st.procedure).getD []) :
    ((∀ k, k < groups.length →
        exceptOk (runPlan (mkPlan st (groups.getD k [])
          (rawGoalsOf st))) = true) →
      (on_start_button st runPlan).invoked =
        groups.map (fun ks => mkPlan st ks (rawGoalsOf st))) ∧
    (∀ i, i < groups.length →
      (∀ k, k < i →
        exceptOk (runPlan (mkPlan st (groups.getD k [])
          (rawGoalsOf st))) = true) →
      exceptOk (runPlan (mkPlan st (groups.getD i [])
        (rawGoalsOf st))) = false →
      (on_start_button st runPlan).invoked =
        (groups.map (fun ks => mkPlan st ks (rawGoalsOf st))).take (i + 1)) := by
  have hcond : ((goals st).take (activeSystem st).length).any
      (fun g => g.isNone) = false := by
    rw [List.any_eq_false]
    intro g hg
    intro hnone
    exact hfilled (by
      rw [show g = none from Option.isNone_iff_eq_none.mp hnone] at hg
      exact hg)
  have hinv : (on_start_button st runPlan).invoked =
      (runGroups st runPlan (rawGoalsOf st) st.nominalPos
        ((st.alignments.lookup st.procedure).getD [])).1 := by
    simp [on_start_button, hidle, hcond, rawGoalsOf]
  constructor
  · intro hall
    rw [hinv, ← hgroups]
    exact runGroups_all_ok st runPlan (rawGoalsOf st) st.nominalPos
      groups hall
  · intro i hi hok hfail
    rw [hinv, ← hgroups]
    exact runGroups_first_error st runPlan (rawGoalsOf st) st.nominalPos
      groups i hi hok hfail

/-- Witness for C6: the two-group procedure of `twoImagerState` with a
run-engine that raises on every invocation; only group 1's plan is
invoked. -/
theorem sequential_group_first_error_abort_witness :
    (on_start_button twoImagerState (fun _ => .error "exc")).invoked =
      ([["k1"], ["k2"]].map (fun ks =>
        mkPlan twoImagerState ks (rawGoalsOf twoImagerState))).take (0 + 1) := by
  have h := sequential_group_first_error_abort twoImagerState
    (fun _ => .error "exc") rfl (by decide) [["k1"], ["k2"]] rfl
  exact h.2 0 (by decide) (fun k hk => absurd hk (Nat.not_lt_zero k)) rfl

/-! ### Cache persistence across procedure switches (C9) -/

def imP3H : Imager :=
  { name := "test_p3h", arraySizeX := ⟨"p3h_size_x", 640⟩,
    arraySizeY := ⟨"p3h_size_y", 480⟩,
    centroidX := ⟨"p3h_cent_x", 0⟩, centroidY := ⟨"p3h_cent_y", 0⟩ }

def imDG3 : Imager :=
  { name := "test_dg3", arraySizeX := ⟨"dg3_size_x", 640⟩,
    arraySizeY := ⟨"dg3_size_y", 480⟩,
    centroidX := ⟨"dg3_cent_x", 0⟩, centroidY := ⟨"dg3_cent_y", 0⟩ }

def imMECY1 : Imager :=
  { name := "test_mecy1", arraySizeX := ⟨"mecy1_size_x", 640⟩,
    arraySizeY := ⟨"mecy1_size_y", 480⟩,
    centroidX := ⟨"mecy1_cent_x", 0⟩, centroidY := ⟨"mecy1_cent_y", 0⟩ }

/-- The real `alignments` table of `SkywalkerGui` (lines 88-90). -/
def homsAlignments : List (String × List (List String)) :=
  [("HOMS", [["m1h", "m2h"]]), ("MFX", [["mfx"]]),
   ("HOMS + MFX", [["m1h", "m2h"], ["mfx"]])]

/-- The sim `system` of `get_system(sim_system(), 0)` (lines 31-79),
with the imager devices reduced to the fields the core reads. -/
def simSystem : List (String × SysEntry) :=
  [("m1h", { mirror := "test_m1h", imager := imP3H,
             slits := none, rotation := 0 }),
   ("m2h", { mirror := "test_m2h", imager := imDG3,
             slits := none, rotation := 0 }),
   ("mfx", { mirror := "test_xrtm2", imager := imMECY1,
             slits := none, rotation := 0 })]

/-- An empty goal slot, used as the out-of-range default of `getD`. -/
def emptyGoalGroup : GoalGroup := { labelText := "", content := none }

/-! #### Characterization layer for `on_procedure_combo_changed`

`saveAll` and `setupSlots` name the two phases of the switch (the
save-and-clear fold and the re-seeding of active slots); `switch_eq`
proves the embedding equal to their composition, and the lemmas that
follow describe how they move cache entries and slots. -/

/-- The cache after the first loop of `on_procedure_combo_changed`:
every slot's `save_value`, threaded left to right. -/
def saveAll (groups : List GoalGroup) (cache : List (String × ℚ)) :
    List (String × ℚ) :=
  groups.foldl (fun c g => save_value g c) cache

/-- The goal slots after the second loop of
`on_procedure_combo_changed`: slots zipped with an imager name get
`vw_setup` with it, slots zipped with `None` and trailing slots are
left as they are. -/
def setupSlots (cleared : List GoalGroup) (padded : List (Option String))
    (cache : List (String × ℚ)) : List GoalGroup :=
  ((cleared.zip padded).map (fun p =>
    match p.2 with
    | none => p.1
    | some n => vw_setup p.1 cache (some n))) ++
  cleared.drop padded.length

theorem foldl_save_clear (groups : List GoalGroup) (acc : List GoalGroup)
    (cache : List (String × ℚ)) :
    groups.foldl (fun (a : List GoalGroup × List (String × ℚ)) g =>
        (a.1 ++ [vw_clear g], save_value g a.2)) (acc, cache) =
      (acc ++ groups.map vw_clear, saveAll groups cache) := by
  induction groups generalizing acc cache with
  | nil => simp [saveAll]
  | cons g rest ih =>
    simp only [List.foldl_cons, List.map_cons]
    rw [ih]
    simp [saveAll]

/-- `imagersPadded`, as a function of the three state fields it reads;
a canonical spelling that is unaffected by updates to the other
fields. -/
def paddedFor (alignments : List (String × List (List String)))
    (procName : String) (system : List (String × SysEntry)) :
    List (Option String) :=
  let l := ((alignments.lookup procName).getD []).flatten.map
    (fun k => some ((system.lookup k).getD defaultSysEntry).imager.name)
  l ++ List.replicate (MAX_MIRRORS - l.length) none

theorem imagersPadded_eq (st : GuiState) :
    imagersPadded st = paddedFor st.alignments st.procedure st.system := rfl

theorem switch_eq (st : GuiState) (p : String) :
    on_procedure_combo_changed st p =
      { st with
        procedure := p,
        goalGroups := setupSlots (st.goalGroups.map vw_clear)
          (paddedFor st.alignments p st.system)
          (saveAll st.goalGroups st.configCache),
        configCache := saveAll st.goalGroups st.configCache } := by
  simp only [on_procedure_combo_changed, foldl_save_clear,
    List.nil_append, setupSlots, paddedFor, imagersPadded, activeSystem,
    sysGet]

theorem setupSlots_length (c : List GoalGroup) (p : List (Option String))
    (cache : List (String × ℚ)) :
    (setupSlots c p cache).length = c.length := by
  simp [setupSlots]
  omega

theorem setupSlots_cons (x : GoalGroup) (c : List GoalGroup)
    (q : Option String) (p : List (Option String))
    (cache : List (String × ℚ)) :
    setupSlots (x :: c) (q :: p) cache =
      (match q with
        | none => x
        | some m => vw_setup x cache (some m)) :: setupSlots c p cache := by
  simp only [setupSlots, List.zip_cons_cons, List.map_cons,
    List.cons_append, List.length_cons, List.drop_succ_cons]

theorem vw_setup_labelText (g : GoalGroup) (cache : List (String × ℚ))
    (m : String) :
    (vw_setup g cache (some m)).labelText = m := by
  simp only [vw_setup, load_value]
  cases h : cache.lookup m <;> simp [h]

theorem vw_setup_content (g : GoalGroup) (cache : List (String × ℚ))
    (m : String) (w : ℚ) (h : cache.lookup m = some w) :
    (vw_setup g cache (some m)).content = some w := by
  simp [vw_setup, load_value, h]

/-- Every slot produced by a procedure switch either carries one of the
new procedure's imager names or has been cleared; so if no new-procedure
slot is named `n`, no slot can later save a value under `n`. -/
theorem switch_groups_safe (orig : List GoalGroup)
    (padded : List (Option String)) (cache : List (String × ℚ))
    (n : String) (hp : ∀ x ∈ padded, x ≠ some n) :
    ∀ g ∈ setupSlots (orig.map vw_clear) padded cache,
      g.labelText ≠ n ∨ g.content = none := by
  intro g hg
  rcases List.mem_append.mp hg with hmap | hdrop
  · rcases List.mem_map.mp hmap with ⟨pr, hpr, heq⟩
    subst heq
    rcases pr with ⟨a, b⟩
    have hmem := List.of_mem_zip hpr
    cases b with
    | none =>
      right
      rcases List.mem_map.mp hmem.1 with ⟨x, hx, hxe⟩
      subst hxe
      rfl
    | some m =>
      left
      show (vw_setup a cache (some m)).labelText ≠ n
      rw [vw_setup_labelText]
      intro he
      exact hp (some m) hmem.2 (by rw [he])
  · right
    have hmem : g ∈ orig.map vw_clear := List.mem_of_mem_drop hdrop
    rcases List.mem_map.mp hmem with ⟨x, hx, hxe⟩
    subst hxe
    rfl

theorem getD_setupSlots (c : List GoalGroup) (p : List (Option String))
    (cache : List (String × ℚ)) (i : ℕ) (m : String)
    (hc : i < c.length) (hm : p.getD i none = some m) :
    (setupSlots c p cache).getD i emptyGoalGroup =
      vw_setup (c.getD i emptyGoalGroup) cache (some m) := by
  induction c generalizing p i with
  | nil => simp at hc
  | cons x c ih =>
    cases p with
    | nil => simp [List.getD] at hm
    | cons q p =>
      rw [setupSlots_cons]
      cases i with
      | zero =>
        have hq : q = some m := by simpa using hm
        subst hq
        rfl
      | succ j =>
        have hm2 : p.getD j none = some m := by simpa using hm
        have hc2 : j < c.length := by simpa using hc
        simpa using ih p j hc2 hm2

theorem lookup_filter_ne (l : List (String × ℚ)) (n k : String)
    (h : ¬ n = k) :
    (l.filter (fun p => p.1 != k)).lookup n = l.lookup n := by
  induction l with
  | nil => rfl
  | cons a l ih =>
    obtain ⟨a1, a2⟩ := a
    by_cases hk : a1 = k
    · have h1 : (a1 != k) = false := by simp [hk]
      have h2 : (n == a1) = false :=
        beq_eq_false_iff_ne.mpr (by intro he; exact h (he.trans hk))
      simp [List.filter_cons, h1, List.lookup, h2, ih]
    · have h1 : (a1 != k) = true := by simp [hk]
      simp [List.filter_cons, h1, List.lookup, ih]

theorem dictSet_lookup_self (l : List (String × ℚ)) (k : String) (v : ℚ) :
    (dictSet l k v).lookup k = some v := by
  simp [dictSet, List.lookup]

theorem dictSet_lookup_ne (l : List (String × ℚ)) (k : String) (v : ℚ)
    (n : String) (h : ¬ n = k) :
    (dictSet l k v).lookup n = l.lookup n := by
  have hkn : (n == k) = false := beq_eq_false_iff_ne.mpr h
  simp [dictSet, List.lookup, hkn, lookup_filter_ne l n k h]

theorem save_value_lookup_ne (g : GoalGroup) (cache : List (String × ℚ))
    (n : String) (h : g.labelText ≠ n ∨ g.content = none) :
    (save_value g cache).lookup n = cache.lookup n := by
  cases hc : g.content with
  | none => simp [save_value, hc]
  | some w =>
    have hlab : g.labelText ≠ n := by
      rcases h with h1 | h2
      · exact h1
      · rw [hc] at h2; exact absurd h2 (by simp)
    simp [save_value, hc,
      dictSet_lookup_ne _ _ _ _ (fun he => hlab he.symm)]

theorem saveAll_lookup_ne (groups : List GoalGroup)
    (cache : List (String × ℚ)) (n : String)
    (h : ∀ g ∈ groups, g.labelText ≠ n ∨ g.content = none) :
    (saveAll groups cache).lookup n = cache.lookup n := by
  induction groups generalizing cache with
  | nil => rfl
  | cons g rest ih =>
    rw [show saveAll (g :: rest) cache = saveAll rest (save_value g cache)
      from rfl]
    rw [ih _ (fun x hx => h x (List.mem_cons_of_mem g hx))]
    exact save_value_lookup_ne g cache n (h g (List.mem_cons_self g rest))

theorem saveAll_append (l1 l2 : List GoalGroup)
    (cache : List (String × ℚ)) :
    saveAll (l1 ++ l2) cache = saveAll l2 (saveAll l1 cache) := by
  simp [saveAll, List.foldl_append]

/-- The slot holding `⟨n, some v⟩` saves `v` under `n`, and no later
slot disturbs the entry. -/
theorem saveAll_lookup_slot (pre post : List GoalGroup) (n : String)
    (v : ℚ) (cache : List (String × ℚ))
    (hpost : ∀ g ∈ post, g.labelText ≠ n ∨ g.content = none) :
    (saveAll (pre ++ { labelText := n, content := some v } :: post)
      cache).lookup n = some v := by
  rw [saveAll_append]
  rw [show saveAll ({ labelText := n, content := some v } :: post)
        (saveAll pre cache) =
      saveAll post (dictSet (saveAll pre cache) n v) from rfl]
  rw [saveAll_lookup_ne post _ n hpost]
  exact dictSet_lookup_self _ n v

/-- The claim scenario: save the given slot's value, switch to `pNew`,
switch back to the original procedure. -/
def procedureRoundTrip (st : GuiState) (slot : GoalGroup)
    (pNew : String) : GuiState :=
  on_procedure_combo_changed
    (on_procedure_combo_changed
      { st with configCache := save_value slot st.configCache } pNew)
    st.procedure

/-- C9: Cache persistence across procedure switches.  For every goal
name `n`, every slot position (`pre.length`), every value `v` and every
procedure switch: after saving `v` under `n` (the `save_value` of the
slot holding it), selecting a procedure none of whose active imager
slots is named `n`, and re-selecting the original procedure (whose
padded imager list names the saved slot `n`), the load performed by the
second switch restores `v` into that slot and the cache still maps `n`
to `v` — the saved goal persisted, neither overwritten nor cleared.
The side conditions (`hpost`, `hnew`) say no other slot can save under
the same name, which holds in the real system because imager names are
unique. -/
theorem cache_persistence (st : GuiState) (pre post : List GoalGroup)
    (n : String) (v : ℚ) (pNew : String)
    (hdecomp : st.goalGroups =
      pre ++ { labelText := n, content := some v } :: post)
    (hpost : ∀ g ∈ post, g.labelText ≠ n ∨ g.content = none)
    (hnew : ∀ x ∈ paddedFor st.alignments pNew st.system, x ≠ some n)
    (hback : (paddedFor st.alignments st.procedure st.system).getD
      pre.length none = some n) :
    ((procedureRoundTrip st { labelText := n, content := some v }
        pNew).goalGroups.getD pre.length emptyGoalGroup).content =
      some v ∧
    ((procedureRoundTrip st { labelText := n, content := some v }
        pNew).goalGroups.getD pre.length emptyGoalGroup).labelText = n ∧
    (procedureRoundTrip st { labelText := n, content := some v }
      pNew).configCache.lookup n = some v := by
  have hi : pre.length < st.goalGroups.length := by
    rw [hdecomp]
    simp [List.length_append]
  have hcache1 :
      (saveAll st.goalGroups
        (save_value { labelText := n, content := some v }
          st.configCache)).lookup n = some v := by
    rw [hdecomp]
    exact saveAll_lookup_slot pre post n v _ hpost
  have hsafe :
      ∀ g ∈ setupSlots (st.goalGroups.map vw_clear)
          (paddedFor st.alignments pNew st.system)
          (saveAll st.goalGroups
            (save_value { labelText := n, content := some v }
              st.configCache)),
        g.labelText ≠ n ∨ g.content = none :=
    switch_groups_safe st.goalGroups _ _ n hnew
  have hcache2 :
      (saveAll
        (setupSlots (st.goalGroups.map vw_clear)
          (paddedFor st.alignments pNew st.system)
          (saveAll st.goalGroups
            (save_value { labelText := n, content := some v }
              st.configCache)))
        (saveAll st.goalGroups
          (save_value { labelText := n, content := some v }
            st.configCache))).lookup n = some v := by
    rw [saveAll_lookup_ne _ _ n hsafe]
    exact hcache1
  have hlen1 :
      ((setupSlots (st.goalGroups.map vw_clear)
        (paddedFor st.alignments pNew st.system)
        (saveAll st.goalGroups
          (save_value { labelText := n, content := some v }
            st.configCache))).map vw_clear).length =
      st.goalGroups.length := by
    rw [List.length_map, setupSlots_length, List.length_map]
  have hslot :=
    getD_setupSlots
      ((setupSlots (st.goalGroups.map vw_clear)
        (paddedFor st.alignments pNew st.system)
        (saveAll st.goalGroups
          (save_value { labelText := n, content := some v }
            st.configCache))).map vw_clear)
      (paddedFor st.alignments st.procedure st.system)
      (saveAll
        (setupSlots (st.goalGroups.map vw_clear)
          (paddedFor st.alignments pNew st.system)
          (saveAll st.goalGroups
            (save_value { labelText := n, content := some v }
              st.configCache)))
        (saveAll st.goalGroups
          (save_value { labelText := n, content := some v }
            st.configCache)))
      pre.length n (by rw [hlen1]; exact hi) hback
  unfold procedureRoundTrip
  rw [switch_eq, switch_eq]
  dsimp only
  refine ⟨?_, ?_, ?_⟩
  · rw [hslot]
    exact vw_setup_content _ _ _ _ hcache2
  · rw [hslot]
    exact vw_setup_labelText _ _ _
  · exact hcache2

/-- Initial state for the concrete cache-persistence witness: procedure
HOMS active, first goal slot (imager `test_p3h`) holding the value. -/
def cacheScenarioState (v : ℚ) : GuiState :=
  { reState := .idle, procedure := "HOMS", alignments := homsAlignments,
    system := simSystem,
    goalGroups := [{ labelText := "test_p3h", content := some v },
                   { labelText := "test_dg3", content := none },
                   { labelText := "", content := none },
                   { labelText := "", content := none }],
    configCache := [], nominalPos := [], autoSwitchCam := false }

/-- Witness for C9: the spec scenario at value 12.5, name `test_p3h`,
switching HOMS to MFX and back. -/
theorem cache_persistence_witness :
    ((procedureRoundTrip (cacheScenarioState (25 / 2))
        { labelText := "test_p3h", content := some (25 / 2) }
        "MFX").goalGroups.getD 0 emptyGoalGroup).content =
      some (25 / 2) ∧
    ((procedureRoundTrip (cacheScenarioState (25 / 2))
        { labelText := "test_p3h", content := some (25 / 2) }
        "MFX").goalGroups.getD 0 emptyGoalGroup).labelText =
      "test_p3h" ∧
    (procedureRoundTrip (cacheScenarioState (25 / 2))
      { labelText := "test_p3h", content := some (25 / 2) }
      "MFX").configCache.lookup "test_p3h" = some (25 / 2) := by
  have h := cache_persistence (cacheScenarioState (25 / 2)) []
    [{ labelText := "test_dg3", content := none },
     { labelText := "", content := none },
     { labelText := "", content := none }]
    "test_p3h" (25 / 2) "MFX" rfl (by decide) (by decide) (by decide)
  exact h

/-! ### Centroid display update (C10):
`ImgObjWidget.update_centroid` (lines 1163-1176) -/

/-- The slice of `ImgObjWidget` state touched by `update_centroid`:
the rotation modifiers fixed at setup time, the stored positions
`self.xpos`/`self.ypos`, and the displayed centroid values (the
widget shows `"{:.1f}".format(pos)`; the model stores the number
displayed, `None` when the widget has not been written yet). -/
structure CentroidState where
  mod_x : Option ℚ
  mod_y : Option ℚ
  xpos : ℚ
  ypos : ℚ
  xText : Option ℚ
  yText : Option ℚ
deriving DecidableEq

/-- Embedding of `update_centroid`: `xpos = self.cent_x.value; if
self.mod_x is not None and xpos not in (0, None): xpos = self.mod_x -
xpos; if xpos is not None: <display and store>`, and the same for y.
`rawX`/`rawY` are the signal values at callback time.  The final
`update_deltas()` call only rewrites the delta display widgets from
already-stored state and is not represented. -/
def update_centroid (st : CentroidState) (rawX rawY : Option ℚ) :
    CentroidState :=
  let xpos : Option ℚ :=
    match st.mod_x, rawX with
    | some m, some x => if x = 0 then some x else some (m - x)
    | _, _ => rawX
  let ypos : Option ℚ :=
    match st.mod_y, rawY with
    | some m, some y => if y = 0 then some y else some (m - y)
    | _, _ => rawY
  { st with
    xpos := match xpos with | some x => x | none => st.xpos
    xText := match xpos with | some x => some x | none => st.xText
    ypos := match ypos with | some y => y | none => st.ypos
    yText := match ypos with | some y => some y | none => st.yText }

/-- C10: zero-reading exception in the centroid display.  For either
axis whose reflection modifier (`mod_x` or `mod_y`) is non-null, the
update handler applies the reflection `mod - raw` only when that
axis's raw reading is neither 0 nor None: a raw reading of exactly 0
is displayed and stored as 0 (not as `mod - 0 = mod`), a non-zero raw
reading `r` is displayed and stored as `mod - r`, and a None reading
leaves that axis's stored and displayed values unchanged — each axis
independently of the other axis's raw reading. -/
theorem centroid_zero_exception (st : CentroidState) (mx my : ℚ)
    (rawX rawY : Option ℚ) :
    (st.mod_x = some mx →
      ((update_centroid st (some 0) rawY).xpos = 0 ∧
       (update_centroid st (some 0) rawY).xText = some 0) ∧
      (mx ≠ 0 → (update_centroid st (some 0) rawY).xpos ≠ mx - 0) ∧
      (∀ x : ℚ, x ≠ 0 →
        (update_centroid st (some x) rawY).xpos = mx - x ∧
        (update_centroid st (some x) rawY).xText = some (mx - x)) ∧
      ((update_centroid st none rawY).xpos = st.xpos ∧
       (update_centroid st none rawY).xText = st.xText)) ∧
    (st.mod_y = some my →
      ((update_centroid st rawX (some 0)).ypos = 0 ∧
       (update_centroid st rawX (some 0)).yText = some 0) ∧
      (my ≠ 0 → (update_centroid st rawX (some 0)).ypos ≠ my - 0) ∧
      (∀ y : ℚ, y ≠ 0 →
        (update_centroid st rawX (some y)).ypos = my - y ∧
        (update_centroid st rawX (some y)).yText = some (my - y)) ∧
      ((update_centroid st rawX none).ypos = st.ypos ∧
       (update_centroid st rawX none).yText = st.yText)) := by
  constructor
  · intro hmod
    refine ⟨⟨?_, ?_⟩, ?_, ?_, ?_, ?_⟩
    · simp [update_centroid, hmod]
    · simp [update_centroid, hmod]
    · intro hm
      simp [update_centroid, hmod]
      intro hcontra
      exact hm (by linarith)
    · intro x hx
      constructor
      · simp [update_centroid, hmod, if_neg hx]
      · simp [update_centroid, hmod, if_neg hx]
    · simp [update_centroid, hmod]
    · simp [update_centroid, hmod]
  · intro hmod
    refine ⟨⟨?_, ?_⟩, ?_, ?_, ?_, ?_⟩
    · simp [update_centroid, hmod]
    · simp [update_centroid, hmod]
    · intro hm
      simp [update_centroid, hmod]
      intro hcontra
      exact hm (by linarith)
    · intro y hy
      constructor
      · simp [update_centroid, hmod, if_neg hy]
      · simp [update_centroid, hmod, if_neg hy]
    · simp [update_centroid, hmod]
    · simp [update_centroid, hmod]

/-- An imager view with both reflection modifiers set (x: 500,
y: 300), for the C10 witness. -/
def centroidWitnessState : CentroidState :=
  { mod_x := some 500, mod_y := some 300, xpos := 3, ypos := 4,
    xText := none, yText := none }

/-- Witness for C10 on both axes: x modifier 500, y modifier 300, the
other axis's raw reading absent. -/
theorem centroid_zero_exception_witness :
    (((update_centroid centroidWitnessState (some 0) none).xpos = 0 ∧
      (update_centroid centroidWitnessState (some 0) none).xText =
        some 0) ∧
     ((500 : ℚ) ≠ 0 →
       (update_centroid centroidWitnessState (some 0) none).xpos ≠
         500 - 0) ∧
     (∀ x : ℚ, x ≠ 0 →
       (update_centroid centroidWitnessState (some x) none).xpos =
         500 - x ∧
       (update_centroid centroidWitnessState (some x) none).xText =
         some (500 - x)) ∧
     ((update_centroid centroidWitnessState none none).xpos =
        centroidWitnessState.xpos ∧
      (update_centroid centroidWitnessState none none).xText =
        centroidWitnessState.xText)) ∧
    (((update_centroid centroidWitnessState none (some 0)).ypos = 0 ∧
      (update_centroid centroidWitnessState none (some 0)).yText =
        some 0) ∧
     ((300 : ℚ) ≠ 0 →
       (update_centroid centroidWitnessState none (some 0)).ypos ≠
         300 - 0) ∧
     (∀ y : ℚ, y ≠ 0 →
       (update_centroid centroidWitnessState none (some y)).ypos =
         300 - y ∧
       (update_centroid centroidWitnessState none (some y)).yText =
         some (300 - y)) ∧
     ((update_centroid centroidWitnessState none none).ypos =
        centroidWitnessState.ypos ∧
      (update_centroid centroidWitnessState none none).yText =
        centroidWitnessState.yText)) := by
  have h := centroid_zero_exception centroidWitnessState 500 300 none none
  exact ⟨h.1 rfl, h.2 rfl⟩

end Skywalker
